import Mathlib

/-!
Shallow embedding of `wifi_fuzzer.py` (fun-with-wifi): a straight-line script
that loads a capture, selects its first beacon frame, mutates information
elements (Dot11Elt) in place, and loop-sends the result.

Data model: an information element is scapy's `Dot11Elt` with fields
`ID`, `len`, `info`; a frame carries `addr2` (source MAC, modelled as its
six wire bytes) and the ordered list of its information elements.
-/

namespace WifiFuzzer

structure Dot11Elt where
  ID : Nat
  len : Nat
  info : List Nat
deriving DecidableEq, Repr

structure Frame where
  addr2 : List Nat
  elements : List Dot11Elt
deriving DecidableEq, Repr

/-- Update the element at index `i` of a list (identity when out of range).
Models Python's in-place `frame[Dot11Elt][i].field = value`. -/
def modifyIdx : List α → Nat → (α → α) → List α
  | [], _, _ => []
  | x :: xs, 0, g => g x :: xs
  | x :: xs, n + 1, g => x :: modifyIdx xs n g

/-- The three mutable fields of an information element, with the value
assigned to them: `id`, `length` (`len` in scapy) or `payload` (`info`). -/
inductive FieldVal where
  | id (v : Nat)
  | length (v : Nat)
  | payload (v : List Nat)

/-- Assign one field of an information element, leaving the other two alone. -/
def setField (e : Dot11Elt) : FieldVal → Dot11Elt
  | .id v => { e with ID := v }
  | .length v => { e with len := v }
  | .payload v => { e with info := v }

/-- `set_element_field(frame, i, field, value)`: the script's
`frame[Dot11Elt][i].<field> = value` attribute assignment. No validation of
any kind is performed. -/
def set_element_field (f : Frame) (i : Nat) (fv : FieldVal) : Frame :=
  { f with elements := modifyIdx f.elements i (fun e => setField e fv) }

/-- Read information element `i` of a frame (scapy's `frame[Dot11Elt][i]`). -/
def getElt (f : Frame) (i : Nat) : Dot11Elt :=
  (f.elements.get? i).getD ⟨0, 0, []⟩

/-- `ssid_name = "A"*32` (line 27): thirty-two ASCII `A` bytes. -/
def ssid_name : List Nat := List.replicate 32 65

/-- The MAC string `"40:e3:d6:bf:dd:01"` assigned to `frame.addr2` (line 30),
as its six wire bytes. -/
def macBytes : List Nat := [0x40, 0xe3, 0xd6, 0xbf, 0xdd, 0x01]

/-- `"ABCD"` (line 44). -/
def abcdPayload : List Nat := [65, 66, 67, 68]

/-- `"HR \x00\x00$"` (line 46): the six bytes assigned to element 4's `info`. -/
def hrPayload : List Nat := [72, 82, 32, 0, 0, 36]

/-- scapy resolves the symbolic tag name given at line 43 to tag value 0. -/
def SSID_ID : Nat := 0

/-- Lines 27-30: set element 0's `info` to `ssid_name`, its `len` to 32, and
the frame's `addr2` to the fixed MAC. -/
def scriptStep1 (f : Frame) : Frame :=
  let f1 := set_element_field f 0 (.payload ssid_name)
  let f2 := set_element_field f1 0 (.length 32)
  { f2 with addr2 := macBytes }

/-- Lines 38-45, the element-0/element-1 reordering block, with each
right-hand side read from the state the previous assignment produced:
element 0's ID/info/len are overwritten with element 1's, then element 1 is
overwritten with the constant SSID element (`ID = 'SSID'`, `info = "ABCD"`,
`len = 4`). -/
def reorder_block (f : Frame) : Frame :=
  let f1 := set_element_field f 0 (.id (getElt f 1).ID)
  let f2 := set_element_field f1 0 (.payload (getElt f1 1).info)
  let f3 := set_element_field f2 0 (.length (getElt f2 1).len)
  let f4 := set_element_field f3 1 (.id SSID_ID)
  let f5 := set_element_field f4 1 (.payload abcdPayload)
  set_element_field f5 1 (.length 4)

/-- Line 46: `frame[Dot11Elt][4].info = "HR \x00\x00$"`. Note that the
element's `len` field is not touched. -/
def elt4_write (f : Frame) : Frame :=
  set_element_field f 4 (.payload hrPayload)

/-- The script's whole mutation pipeline applied to the selected frame
(lines 27-46). -/
def scriptMutations (f : Frame) : Frame :=
  elt4_write (reorder_block (scriptStep1 f))

/-- The SSID value printed at line 31: `frame.info` resolves to the first
information element's `info`, read after lines 27-30 have run. -/
def printed_ssid (f : Frame) : List Nat :=
  (getElt (scriptStep1 f) 0).info

/-- The payload of the first information element whose tag is the SSID tag:
the SSID the transmitted frame actually advertises. -/
def find_ssid (f : Frame) : Option (List Nat) :=
  (f.elements.find? (fun e => e.ID == SSID_ID)).map Dot11Elt.info

/-- The script seen from the loaded capture: `frame = frames[0]` aliases the
first stored frame, so every in-place mutation applied through `frame` lands
on entry 0 of the loaded sequence. -/
def runScript (frames : List Frame) : List Frame :=
  modifyIdx frames 0 scriptMutations

/-- Serialize one information element: tag byte, length byte (each reduced
mod 256 as on the wire), then the raw payload bytes, exactly as assigned. -/
def serializeElt (e : Dot11Elt) : List Nat :=
  e.ID % 256 :: e.len % 256 :: e.info

/-- Serialize an element list: the concatenation of its elements' TLVs. -/
def serializeElts : List Dot11Elt → List Nat
  | [] => []
  | e :: es => serializeElt e ++ serializeElts es

/-- Parse a byte stream back into information elements: read a tag byte and a
length byte, take `len` payload bytes, recurse on the rest; fail on a
truncated stream. -/
def parseElts : List Nat → Option (List Dot11Elt)
  | [] => some []
  | [_] => none
  | i :: n :: rest =>
    if n ≤ rest.length then
      match parseElts (rest.drop n) with
      | some es => some (⟨i, n, rest.take n⟩ :: es)
      | none => none
    else none
termination_by l => l.length
decreasing_by simp [List.length_drop]; omega

/-- Well-formedness of an information element on the wire: tag and length fit
in one byte and the length field equals the payload's byte count. -/
def wfElt (e : Dot11Elt) : Prop :=
  e.ID < 256 ∧ e.len < 256 ∧ e.len = e.info.length

instance : DecidablePred wfElt := fun e => by
  unfold wfElt
  infer_instance

/-- Lines 28-29 as an operation: assign a payload to element 0 and set its
length field to 32 (the script instantiates the payload with `ssid_name`). -/
def setSsid32 (f : Frame) (v : List Nat) : Frame :=
  set_element_field (set_element_field f 0 (.payload v)) 0 (.length 32)

/-- The spec's error taxonomy for loading and selecting. -/
inductive ScriptError where
  | captureReadError
  | emptyCaptureError
deriving DecidableEq, Repr

/-- `select_first(frames)`: the script's `frame = frames[0]`, which yields the
first frame and raises (modelled as the spec's `EmptyCaptureError`) on an
empty sequence. -/
def select_first : List Frame → Except ScriptError Frame
  | [] => .error .emptyCaptureError
  | f :: _ => .ok f

/-- Modelled from the spec: `rdpcap`, the capture reader called at line 21,
is scapy-library code absent from `src/`. The possible states of the file at
the given path: missing, unreadable, not a valid capture format, or a valid
capture holding a (possibly empty) frame sequence. -/
inductive FileState where
  | missing
  | unreadable
  | invalidFormat
  | validCapture (frames : List Frame)

/-- Modelled from the spec: `load(path)` parses a capture file into frames
and fails with `CaptureReadError` if the file is missing, unreadable, or not
a valid capture format. -/
def load : FileState → Except ScriptError (List Frame)
  | .missing => .error .captureReadError
  | .unreadable => .error .captureReadError
  | .invalidFormat => .error .captureReadError
  | .validCapture fs => .ok fs

/-- Lines 21-22 of the script: load the capture, then select its first frame;
any error aborts (propagates) and no frame is produced. -/
def loadAndSelect (st : FileState) : Except ScriptError Frame :=
  match load st with
  | .error e => .error e
  | .ok fs => select_first fs

/-- Modelled from the spec: `rdpcap` on a valid capture parses each stored
frame's element region; a capture is a list of per-frame byte strings. -/
def loadCapture (disk : List (List Nat)) : Option (List (List Dot11Elt)) :=
  disk.mapM parseElts

/-- A concrete five-element beacon frame used as test input. -/
def sampleFrame : Frame :=
  ⟨[0, 0, 0, 0, 0, 0],
   [⟨0, 3, [1, 2, 3]⟩, ⟨1, 2, [9, 9]⟩, ⟨3, 1, [7]⟩, ⟨5, 0, []⟩,
    ⟨42, 8, [1, 2, 3, 4, 5, 6, 7, 8]⟩]⟩

/-! ## Helper lemmas -/

theorem modifyIdx_get?_ne (g : α → α) :
    ∀ (l : List α) (i k : Nat), k ≠ i → (modifyIdx l i g).get? k = l.get? k := by
  intro l
  induction l with
  | nil => intro i k _; rfl
  | cons x xs ih =>
    intro i k hk
    cases i with
    | zero =>
      cases k with
      | zero => exact absurd rfl hk
      | succ k => rfl
    | succ i =>
      cases k with
      | zero => rfl
      | succ k => exact ih i k (fun h => hk (by rw [h]))

theorem modifyIdx_get?_eq (g : α → α) :
    ∀ (l : List α) (i : Nat), (modifyIdx l i g).get? i = (l.get? i).map g := by
  intro l
  induction l with
  | nil => intro i; cases i <;> rfl
  | cons x xs ih =>
    intro i
    cases i with
    | zero => rfl
    | succ i => exact ih i

/-- Serializing well-formed elements and parsing the bytes back recovers the
element list exactly. -/
theorem parse_serialize (es : List Dot11Elt) (h : ∀ e ∈ es, wfElt e) :
    parseElts (serializeElts es) = some es := by
  induction es with
  | nil => simp [serializeElts, parseElts]
  | cons e es ih =>
    obtain ⟨hid, hlen, hinfo⟩ := h e (List.mem_cons_self e es)
    have hrest : ∀ x ∈ es, wfElt x := fun x hx => h x (List.mem_cons_of_mem e hx)
    have h1 : serializeElts (e :: es) =
        e.ID :: e.len :: (e.info ++ serializeElts es) := by
      simp [serializeElts, serializeElt, Nat.mod_eq_of_lt hid, Nat.mod_eq_of_lt hlen]
    have hcond : e.len ≤ (e.info ++ serializeElts es).length := by
      rw [hinfo, List.length_append]
      omega
    have hdrop : (e.info ++ serializeElts es).drop e.len = serializeElts es := by
      rw [hinfo]
      exact List.drop_left e.info (serializeElts es)
    have htake : (e.info ++ serializeElts es).take e.len = e.info := by
      rw [hinfo]
      exact List.take_left e.info (serializeElts es)
    rw [h1, parseElts, if_pos hcond, hdrop, ih hrest, htake]

/-! ## Claim theorems -/

/-- C1 (counterexample): the element-0/element-1 reordering block is not an
exact exchange of `{id, payload, length}` triples. On a concrete frame, after
the block element 1 does not hold element 0's former triple: it holds the
constant `⟨SSID, "ABCD", 4⟩` instead. -/
theorem C1_counterexample :
    (reorder_block sampleFrame).elements.get? 1 ≠ sampleFrame.elements.get? 0 := by
  decide

/-- C1 (amended): the reordering block copies element 1's former
`{id, payload, length}` triple into element 0 and overwrites element 1 with
the constant SSID triple `⟨SSID_ID, 4, "ABCD"⟩`; every other element and the
frame header are unchanged. It is an exact exchange only in the degenerate
case where element 0's former triple already equals that constant. -/
theorem C1_reorder_block_effect (f : Frame) (h : 2 ≤ f.elements.length) :
    (reorder_block f).elements.get? 0 = f.elements.get? 1 ∧
    (reorder_block f).elements.get? 1 = some ⟨SSID_ID, 4, abcdPayload⟩ ∧
    (∀ k, k ≠ 0 → k ≠ 1 → (reorder_block f).elements.get? k = f.elements.get? k) ∧
    (reorder_block f).addr2 = f.addr2 := by
  obtain ⟨addr, els⟩ := f
  rcases els with _ | ⟨a, _ | ⟨b, t⟩⟩
  · simp at h
  · simp at h
  · refine ⟨rfl, rfl, ?_, rfl⟩
    intro k h0 h1
    match k with
    | 0 => exact absurd rfl h0
    | 1 => exact absurd rfl h1
    | n + 2 => rfl

/-- C1 (witness): the amended theorem applied to the concrete sample frame. -/
theorem C1_witness :
    (reorder_block sampleFrame).elements.get? 1 = some ⟨SSID_ID, 4, abcdPayload⟩ :=
  (C1_reorder_block_effect sampleFrame (by decide)).2.1

/-- C3 (counterexample): the loaded capture is not immutable. Running the
script's mutations through the alias `frame = frames[0]` changes the frame
stored at index 0 of the loaded sequence. -/
theorem C3_counterexample : runScript [sampleFrame] ≠ [sampleFrame] := by
  decide

/-- C3 (amended): only the first stored frame changes. The script's mutations,
applied through the alias `frame = frames[0]`, replace entry 0 of the loaded
sequence with its mutated image; every other stored frame is unchanged. -/
theorem C3_alias_mutation (frames : List Frame) :
    (runScript frames).get? 0 = (frames.get? 0).map scriptMutations ∧
    ∀ k, k ≠ 0 → (runScript frames).get? k = frames.get? k :=
  ⟨modifyIdx_get?_eq scriptMutations frames 0,
   fun k hk => modifyIdx_get?_ne scriptMutations frames 0 k hk⟩

/-- C3 (witness): on a two-frame capture, entry 1 is untouched by the run. -/
theorem C3_witness :
    (runScript [sampleFrame, sampleFrame]).get? 1 = some sampleFrame :=
  (C3_alias_mutation [sampleFrame, sampleFrame]).2 1 (by decide)

/-- C4: `select_first` returns the first frame of a non-empty sequence and
fails with `EmptyCaptureError` — an error, never a frame — on the empty one. -/
theorem C4_select_first (fs : List Frame) :
    (∀ g rest, fs = g :: rest → select_first fs = .ok g) ∧
    (fs = [] → select_first fs = .error .emptyCaptureError) ∧
    ∀ g, select_first fs = .ok g → fs.get? 0 = some g := by
  cases fs with
  | nil =>
    refine ⟨?_, fun _ => rfl, ?_⟩
    · intro g rest hgr
      cases hgr
    · intro g hg
      simp [select_first] at hg
  | cons a t =>
    refine ⟨?_, ?_, ?_⟩
    · intro g rest hgr
      injection hgr with h1 _
      subst h1
      rfl
    · intro hgr
      cases hgr
    · intro g hg
      simp only [select_first, Except.ok.injEq] at hg
      subst hg
      rfl

/-- C4 (witness): `select_first` on a singleton and on the empty capture. -/
theorem C4_witness :
    select_first [sampleFrame] = .ok sampleFrame ∧
    select_first [] = .error .emptyCaptureError :=
  ⟨(C4_select_first [sampleFrame]).1 sampleFrame [] rfl,
   (C4_select_first []).2.1 rfl⟩

/-- C2: assigning a 32-byte payload `v` and length 32 to element 0 (the
script does so with `ssid_name`) yields a frame whose serialized element
length byte is 32 and whose serialized payload bytes are exactly `v`;
serializing and reparsing recovers the same `{id, length, payload}` triple
for that element. -/
theorem C2_ssid_serialize_roundtrip (f : Frame) (e : Dot11Elt) (v : List Nat)
    (h : f.elements.get? 0 = some e) (hv : v.length = 32) (hid : e.ID < 256)
    (hrest : ∀ x ∈ f.elements.tail, wfElt x) :
    (serializeElts (setSsid32 f v).elements).get? 1 = some 32 ∧
    ((serializeElts (setSsid32 f v).elements).drop 2).take 32 = v ∧
    parseElts (serializeElts (setSsid32 f v).elements) =
      some (setSsid32 f v).elements ∧
    (setSsid32 f v).elements.get? 0 = some ⟨e.ID, 32, v⟩ := by
  obtain ⟨addr, els⟩ := f
  rcases els with _ | ⟨a, t⟩
  · cases h
  · have ha : a = e := by
      injection h
    subst ha
    have hels : (setSsid32 ⟨addr, a :: t⟩ v).elements = ⟨a.ID, 32, v⟩ :: t := rfl
    have hser : serializeElts (⟨a.ID, 32, v⟩ :: t) =
        a.ID % 256 :: 32 :: (v ++ serializeElts t) := by
      simp [serializeElts, serializeElt]
    have htail : ∀ x ∈ t, wfElt x := hrest
    refine ⟨?_, ?_, ?_, rfl⟩
    · rw [hels, hser]
      rfl
    · rw [hels, hser]
      show (v ++ serializeElts t).take 32 = v
      rw [← hv]
      exact List.take_left v (serializeElts t)
    · rw [hels]
      refine parse_serialize (⟨a.ID, 32, v⟩ :: t) ?_
      intro x hx
      rcases List.mem_cons.mp hx with hx | hx
      · subst hx
        exact ⟨hid, (by decide : (32 : Nat) < 256), hv.symm⟩
      · exact htail x hx

/-- C2 (witness): the theorem applied to the sample frame and `ssid_name`. -/
theorem C2_witness :
    (setSsid32 sampleFrame ssid_name).elements.get? 0 =
      some ⟨0, 32, ssid_name⟩ :=
  (C2_ssid_serialize_roundtrip sampleFrame ⟨0, 3, [1, 2, 3]⟩ ssid_name
    (by decide) (by decide) (by decide) (by decide)).2.2.2

/-- C5: for every file state, a missing, unreadable or invalid-format file
makes `load` — and the load-then-select pipeline — fail with
`CaptureReadError`; an empty capture makes the pipeline fail with
`EmptyCaptureError`; and a frame is produced only from a valid, non-empty
capture (never silently from an error case). -/
theorem C5_load_error_paths (st : FileState) :
    (st = .missing ∨ st = .unreadable ∨ st = .invalidFormat →
      load st = .error .captureReadError ∧
      loadAndSelect st = .error .captureReadError) ∧
    (st = .validCapture [] → loadAndSelect st = .error .emptyCaptureError) ∧
    ∀ g, loadAndSelect st = .ok g →
      ∃ fs, st = .validCapture fs ∧ fs ≠ [] ∧ fs.get? 0 = some g := by
  cases st with
  | missing =>
    refine ⟨fun _ => ⟨rfl, rfl⟩, fun hc => FileState.noConfusion hc, ?_⟩
    intro g hg
    simp [loadAndSelect, load] at hg
  | unreadable =>
    refine ⟨fun _ => ⟨rfl, rfl⟩, fun hc => FileState.noConfusion hc, ?_⟩
    intro g hg
    simp [loadAndSelect, load] at hg
  | invalidFormat =>
    refine ⟨fun _ => ⟨rfl, rfl⟩, fun hc => FileState.noConfusion hc, ?_⟩
    intro g hg
    simp [loadAndSelect, load] at hg
  | validCapture fs =>
    refine ⟨?_, ?_, ?_⟩
    · intro hc
      rcases hc with hc | hc | hc <;> exact FileState.noConfusion hc
    · intro hc
      injection hc with hc
      subst hc
      rfl
    · intro g hg
      cases fs with
      | nil => simp [loadAndSelect, load, select_first] at hg
      | cons a t =>
        refine ⟨a :: t, rfl, by simp, ?_⟩
        simp only [loadAndSelect, load, select_first, Except.ok.injEq] at hg
        subst hg
        rfl

/-- C5 (witness): a missing file yields `CaptureReadError` from both `load`
and the pipeline. -/
theorem C5_witness :
    load .missing = .error .captureReadError ∧
    loadAndSelect .missing = .error .captureReadError :=
  (C5_load_error_paths .missing).1 (Or.inl rfl)

/-- C6: loading a well-formed single-frame capture yields exactly one frame,
and that frame has the same number of information elements as the frame
stored on disk. -/
theorem C6_load_single (es : List Dot11Elt) (h : ∀ e ∈ es, wfElt e) :
    loadCapture [serializeElts es] = some [es] ∧
    ∀ fss, loadCapture [serializeElts es] = some fss →
      fss.length = 1 ∧ ∀ g ∈ fss, g.length = es.length := by
  have h1 : loadCapture [serializeElts es] = some [es] := by
    show [serializeElts es].mapM parseElts = some [es]
    rw [List.mapM_cons, parse_serialize es h, List.mapM_nil]
    rfl
  refine ⟨h1, ?_⟩
  intro fss hfss
  rw [h1] at hfss
  injection hfss with h2
  subst h2
  refine ⟨rfl, ?_⟩
  intro g hg
  rcases List.mem_singleton.mp hg with rfl
  rfl

/-- C6 (witness): the theorem applied to the sample frame's element list. -/
theorem C6_witness :
    loadCapture [serializeElts sampleFrame.elements] =
      some [sampleFrame.elements] :=
  (C6_load_single sampleFrame.elements (by decide)).1

/-- C8: `set_element_field` rewrites exactly the named field of exactly the
indexed element — with no validation linking the length field to the payload
size — and leaves the element's other fields, every other element, and the
frame header unchanged. -/
theorem C8_set_element_field (f : Frame) (i : Nat) (fv : FieldVal)
    (e : Dot11Elt) (h : f.elements.get? i = some e) :
    (set_element_field f i fv).elements.get? i = some (setField e fv) ∧
    (∀ k, k ≠ i → (set_element_field f i fv).elements.get? k =
      f.elements.get? k) ∧
    (set_element_field f i fv).addr2 = f.addr2 ∧
    (∀ v, setField e (.id v) = ⟨v, e.len, e.info⟩) ∧
    (∀ v, setField e (.length v) = ⟨e.ID, v, e.info⟩) ∧
    (∀ v, setField e (.payload v) = ⟨e.ID, e.len, v⟩) := by
  refine ⟨?_, ?_, rfl, fun v => rfl, fun v => rfl, fun v => rfl⟩
  · show (modifyIdx f.elements i fun x => setField x fv).get? i = _
    rw [modifyIdx_get?_eq, h]
    rfl
  · intro k hk
    exact modifyIdx_get?_ne (fun x => setField x fv) f.elements i k hk

/-- C8 (witness): the script's line-46 write, element 4 of the sample frame:
the payload changes, nothing else does, and no length check interferes. -/
theorem C8_witness :
    (set_element_field sampleFrame 4 (.payload hrPayload)).elements.get? 4 =
      some (setField ⟨42, 8, [1, 2, 3, 4, 5, 6, 7, 8]⟩ (.payload hrPayload)) :=
  (C8_set_element_field sampleFrame 4 (.payload hrPayload)
    ⟨42, 8, [1, 2, 3, 4, 5, 6, 7, 8]⟩ (by decide)).1

/-- C9: the SSID printed at line 31 is the 32-`A` string, but the transmitted
frame's SSID element (the first element carrying the SSID tag) holds
`"ABCD"`: the printed SSID never equals the transmitted one. -/
theorem C9_printed_ssid_not_transmitted (f : Frame)
    (h : 5 ≤ f.elements.length) (h1 : (getElt f 1).ID ≠ SSID_ID) :
    printed_ssid f = ssid_name ∧
    find_ssid (scriptMutations f) = some abcdPayload ∧
    printed_ssid f ≠ abcdPayload := by
  obtain ⟨addr, els⟩ := f
  rcases els with _ | ⟨a, _ | ⟨b, _ | ⟨c, _ | ⟨d, _ | ⟨e, t⟩⟩⟩⟩⟩
  · simp at h
  · simp at h
  · simp at h
  · simp at h
  · simp at h
  · have h1b : b.ID ≠ SSID_ID := h1
    refine ⟨rfl, ?_, ?_⟩
    · show (List.find? (fun x => x.ID == SSID_ID)
        (⟨b.ID, b.len, b.info⟩ :: ⟨SSID_ID, 4, abcdPayload⟩ :: c :: d ::
          ⟨e.ID, e.len, hrPayload⟩ :: t)).map Dot11Elt.info = some abcdPayload
      rw [List.find?_cons_of_neg, List.find?_cons_of_pos]
      · rfl
      · simp
      · simp [h1b]
    · exact fun hc => absurd hc (by decide : ssid_name ≠ abcdPayload)

/-- C9 (witness): on the sample frame, whose element 1 is the rates element. -/
theorem C9_witness :
    printed_ssid sampleFrame = ssid_name ∧
    find_ssid (scriptMutations sampleFrame) = some abcdPayload ∧
    printed_ssid sampleFrame ≠ abcdPayload :=
  C9_printed_ssid_not_transmitted sampleFrame (by decide) (by decide)

/-- C10: the line-46 write gives element 4 the six-byte payload
`"HR \x00\x00$"` but leaves its length field at its original captured value,
so whenever that original value is not 6 the transmitted frame's element 4
violates the length-equals-payload-size invariant. -/
theorem C10_len_field_not_updated (f : Frame) (h : 5 ≤ f.elements.length) :
    (getElt (scriptMutations f) 4).len = (getElt f 4).len ∧
    (getElt (scriptMutations f) 4).info = hrPayload ∧
    hrPayload.length = 6 ∧
    ((getElt f 4).len ≠ 6 →
      (getElt (scriptMutations f) 4).len ≠
        (getElt (scriptMutations f) 4).info.length) := by
  obtain ⟨addr, els⟩ := f
  rcases els with _ | ⟨a, _ | ⟨b, _ | ⟨c, _ | ⟨d, _ | ⟨e, t⟩⟩⟩⟩⟩
  · simp at h
  · simp at h
  · simp at h
  · simp at h
  · simp at h
  · exact ⟨rfl, rfl, rfl, fun hne => hne⟩

/-- C10 (witness): the sample frame's element 4 has captured length 8, so
after the script the length field (still 8) differs from the payload size 6. -/
theorem C10_witness :
    (getElt (scriptMutations sampleFrame) 4).info = hrPayload ∧
    (getElt (scriptMutations sampleFrame) 4).len ≠
      (getElt (scriptMutations sampleFrame) 4).info.length :=
  ⟨(C10_len_field_not_updated sampleFrame (by decide)).2.1,
   (C10_len_field_not_updated sampleFrame (by decide)).2.2.2 (by decide)⟩

end WifiFuzzer
